import Mathlib

/-!
Verification of the espresso data-munging core (ACCLAB/espresso).

This file gives a shallow embedding, in Lean 4, of the data model and the
munging operations of the espresso package (the `_munger/munger.py` module
and the `espresso.espresso` class), and proves or refutes a collection of
claims about them.

Modelling conventions:
* A pandas DataFrame becomes a `List` of records with one field per column
  of interest; the column set of each table is fixed by the record type.
* A nullable cell (a float that may be NaN, a string that may be NaN)
  becomes an `Option`; `none` plays the role of NaN / null.
* Arithmetic on nullable floats propagates `none` the way pandas
  propagates NaN; a division whose divisor is zero (an IEEE Inf or NaN
  result) is modelled as `none`.
* Machine floats are modelled by `ℚ`; every constant appearing in the
  source (0.5, 289, 1000, ...) is exactly representable, so no rounding
  behaviour is lost for the properties proved here.
* Raising a Python exception becomes returning `Except.error` with a
  constructor naming the Python exception class.
* In-place mutation of a caller-visible object is modelled with explicit
  state passing: an operation that can mutate its argument is given a
  companion definition returning the post-call state of that argument.
-/

namespace EspressoModel

/-- The Python exception classes raised by the munging code. -/
inductive PyError where
  | valueError (msg : String)
  | keyError (msg : String)
  | typeError (msg : String)
  | attributeError (msg : String)
  deriving Repr, DecidableEq

/-- One step of first-occurrence de-duplication: keep `a` only if it has
not been seen yet. -/
def insertUnique {α : Type} [DecidableEq α] (acc : List α) (a : α) :
    List α :=
  if a ∈ acc then acc else acc ++ [a]

/-- Model of `pandas.Series.unique()`: the distinct values of a column in
order of first appearance. -/
def uniqueKeep {α : Type} [DecidableEq α] (l : List α) : List α :=
  l.foldl insertUnique []

/-- One row of a (munged) espresso feedlog.  The columns are those touched
by the munging functions: `ChamberID`, `FoodChoice`, `RelativeTime_s`,
`FeedVol_µl`, `FeedDuration_ms`, `Valid`, `ExperimentState`, `AviFile`.
Every cell is nullable, as in the pandas frame. -/
structure FeedRow where
  chamberID : Option ℚ
  foodChoice : Option String
  relativeTime_s : Option ℚ
  feedVol_ul : Option ℚ
  feedDuration_ms : Option ℚ
  valid : Option Bool
  experimentState : Option String
  aviFile : Option String
  deriving Repr, DecidableEq

/-- One row of a (munged) espresso metadata table; the columns touched by
the munging functions. -/
structure MetaRow where
  chamberID : ℚ
  genotype : String
  status : Option String
  temperature : Option ℚ
  sex : Option String
  flyCountInChamber : Option ℚ
  tube1 : Option String
  deriving Repr, DecidableEq

/-- A fresh pad row before any field is assigned: in the source,
`Series(repeat(npnan, ncols), index=feed_cols)`, i.e. every cell NaN. -/
def allNanRow : FeedRow :=
  ⟨none, none, none, none, none, none, none, none⟩

/-- Model of `munger.add_padrows(metadata, feedlog, time_end, time_start)`.

Mirrors the source: `end_time = time_end + 289`; for every value of
`metadata.ChamberID.unique()` and every value of
`feedlog.FoodChoice.unique()`, two all-NaN rows are created, the first is
given `RelativeTime_s = time_start + 0.5`, the second
`RelativeTime_s = end_time`, and both then receive the `FoodChoice`,
`ChamberID`, `Valid = False` and `ExperimentState = 'PAD'` assignments;
the accumulated pad rows are appended to a copy of the feedlog. -/
def add_padrows (metadata : List MetaRow) (feedlog : List FeedRow)
    (time_end : ℚ) (time_start : ℚ) : List FeedRow :=
  let end_time := time_end + 289
  let all_padrows :=
    (uniqueKeep (metadata.map (·.chamberID))).flatMap fun chamberid =>
      (uniqueKeep (feedlog.map (·.foodChoice))).flatMap fun choice =>
        let padrow1 := { allNanRow with relativeTime_s := some (time_start + 1/2) }
        let padrow2 := { allNanRow with relativeTime_s := some end_time }
        ([padrow1, padrow2]).map fun padrow =>
          { padrow with foodChoice := choice,
                        chamberID := some chamberid,
                        valid := some false,
                        experimentState := some "PAD" }
  feedlog ++ all_padrows

/-- A synthetic pad row as the specification describes it: elapsed time
`t`, the identifying pair fields, flagged invalid, tagged PAD, and every
other field null. -/
def specPadRow (chamberid : ℚ) (choice : Option String) (t : ℚ) : FeedRow :=
  { chamberID := some chamberid
    foodChoice := choice
    relativeTime_s := some t
    feedVol_ul := none
    feedDuration_ms := none
    valid := some false
    experimentState := some "PAD"
    aviFile := none }

/-- The padded table as the specification describes it: the eventlog
followed by, for every (subject, observed choice) pair, one pad row at
window start + 0.5 s and one at window end + 289 s. -/
def addPadrowsSpec (metadata : List MetaRow) (feedlog : List FeedRow)
    (time_end : ℚ) (time_start : ℚ) : List FeedRow :=
  feedlog ++
    (uniqueKeep (metadata.map (·.chamberID))).flatMap fun chamberid =>
      (uniqueKeep (feedlog.map (·.foodChoice))).flatMap fun choice =>
        [specPadRow chamberid choice (time_start + 1/2),
         specPadRow chamberid choice (time_end + 289)]

/-- Recognises a synthetic pad row for the (subject, choice) pair. -/
def padPred (cid : ℚ) (ch : Option String) (r : FeedRow) : Bool :=
  decide (r.chamberID = some cid ∧ r.foodChoice = ch ∧
          r.experimentState = some "PAD")

/-- The rows of a table belonging to a (subject, choice) pair. -/
def pairRows (rows : List FeedRow) (cid : ℚ) (ch : Option String) :
    List FeedRow :=
  rows.filter (fun r => decide (r.chamberID = some cid ∧ r.foodChoice = ch))

/-- The non-null elapsed-time values observed in the rows of a
(subject, choice) pair. -/
def timesOfPair (rows : List FeedRow) (cid : ℚ) (ch : Option String) :
    List ℚ :=
  (pairRows rows cid ch).filterMap (·.relativeTime_s)

/-- The least element of a list of elapsed times, if any. -/
def minTime : List ℚ → Option ℚ
  | [] => none
  | a :: l =>
    match minTime l with
    | none => some a
    | some b => some (min a b)

/-- The greatest element of a list of elapsed times, if any. -/
def maxTime : List ℚ → Option ℚ
  | [] => none
  | a :: l =>
    match maxTime l with
    | none => some a
    | some b => some (max a b)

/-- A feedlog row with no null cell: exactly the rows that survive
`DataFrame.dropna()`. -/
def rowComplete (r : FeedRow) : Bool :=
  r.chamberID.isSome && r.foodChoice.isSome && r.relativeTime_s.isSome &&
  r.feedVol_ul.isSome && r.feedDuration_ms.isSome && r.valid.isSome &&
  r.experimentState.isSome && r.aviFile.isSome

/-- Model of `munger.detect_non_feeding_flies(metadata_df, feedlog_df)`:
the subjects of the metadata whose identifier does not occur in
`feedlog_df.dropna().ChamberID.unique()`, in metadata order. -/
def detect_non_feeding_flies (metadata : List MetaRow)
    (feedlog : List FeedRow) : List ℚ :=
  (uniqueKeep (metadata.map (·.chamberID))).filter
    (fun chamberid =>
      decide (¬ some chamberid ∈
        uniqueKeep ((feedlog.filter rowComplete).map (·.chamberID))))

/-- A dynamically typed pandas cell: the FlyID column of the metadata
holds strings, while `detect_non_feeding_flies` returns the numeric
ChamberID values. -/
inductive PyCell where
  | num : ℚ → PyCell
  | str : String → PyCell
  deriving Repr, DecidableEq

/-- The column labels of the munged feedlog, as renamed by
`munger.feedlog`: the raw `FlyID` column is now `ChamberID`. -/
def feedlogColumns : List String :=
  ["ChamberID", "FoodChoice", "RelativeTime_s", "FeedVol_µl",
   "FeedDuration_ms", "Valid", "ExperimentState", "AviFile"]

/-- Pandas attribute access `df.name`: an AttributeError when `name` is
not a column label of the frame. -/
def getColumn (name : String) (cols : List String) : Except PyError Unit :=
  if name ∈ cols then .ok ()
  else .error (.attributeError
    ("'DataFrame' object has no attribute '" ++ name ++ "'"))

/-- The FlyID string built for each subject at espresso.py lines 85-86:
`datetime_exptname + '_Fly' + str(metadata_csv.ID)`. -/
def mkFlyID (datetime_exptname : String) (idStr : String) : String :=
  datetime_exptname ++ "_Fly" ++ idStr

/-- Model of the AtLeastOneFeed assignment at espresso.py lines 170-173:
the flag starts True for every subject and is set to False exactly where
the subject's FlyID cell is a member (Python `isin`) of the non-feeding
list — a list that holds the numeric ChamberIDs returned by
`detect_non_feeding_flies`, so the membership test compares a string with
a number. -/
def assignAtLeastOneFeed (flyID : String) (non_feeding_flies : List ℚ) :
    Bool :=
  ¬ PyCell.str flyID ∈ non_feeding_flies.map PyCell.num

/-- Model of the per-feedlog body of `espresso.__init__` after
`munger.feedlog` returns (espresso.py lines 96-106): line 96 re-labels
the feedlog FlyID column by reading `feedlog_csv.FlyID` — but
`munger.feedlog` renamed that column to ChamberID, so the attribute
access raises AttributeError and neither the non-feeding detection
(line 99) nor the padding (line 105) is ever reached in this version of
the code. -/
def initPerFeedlog (metadata : List MetaRow) (feedlog : List FeedRow)
    (expt_duration_minutes : ℚ) : Except PyError (List ℚ × List FeedRow) := do
  let _ ← getColumn "FlyID" feedlogColumns
  let non_feeding := detect_non_feeding_flies metadata feedlog
  let padded := add_padrows metadata feedlog (expt_duration_minutes * 60) 0
  return (non_feeding, padded)

/-- Elementwise model of the pandas test `RelativeTime_s < 0`: a NaN
elapsed time compares as not-less-than-zero, so such rows are kept. -/
def relTimeNeg (r : FeedRow) : Bool :=
  match r.relativeTime_s with
  | some t => decide (t < 0)
  | none => false

/-- Model of `munger.feedlog(path_to_csv)` acting on the parsed CSV rows.
The column renames of the source (`FlyID` to `ChamberID`, `Food 1` to
`Tube1`, `Volume-mm3` to `FeedVol_µl`, ...) are the identity here because
the record type already uses the canonical field names.  After the
zero-row check the source drops the rows whose `AviFile` is the sentinel
'Null', then the rows whose `RelativeTime_s` is negative, and finally
increments every `ChamberID` by 1 to match the metadata IDs. -/
def feedlog (feedlog_csv : List FeedRow) : Except PyError (List FeedRow) :=
  if feedlog_csv.length = 0 then
    -- Source line: `raise ValueError(feedlog + ' has 0 rows. Please
    -- check!!!')`.  The name `feedlog` denotes the enclosing function
    -- object, not the CSV path, so evaluating the argument raises
    -- TypeError before the intended ValueError is ever constructed.
    .error (.typeError
      "unsupported operand type(s) for +: 'function' and 'str'")
  else
    let dropped1 := feedlog_csv.filter
      (fun r => decide (¬ r.aviFile = some "Null"))
    let dropped2 := dropped1.filter (fun r => ¬ relTimeNeg r)
    .ok (dropped2.map
      (fun r => { r with chamberID := r.chamberID.map (· + 1) }))

/-- One raw metadata CSV row, before munging. -/
structure MetaCsvRow where
  chamberID : ℚ
  id : ℚ
  genotype : String
  temperature : Option ℚ
  sex : Option String
  flies : Option ℚ
  food1 : Option String
  deriving Repr, DecidableEq

/-- The per-row munging performed by `munger.metadata`: the column renames
are the identity on this record type; the `#Flies` count is filled with 1
where missing and coerced to integer (the floor, which agrees with the
numpy cast on these non-negative counts); the tube label gets the two
documented string substitutions. -/
def mungeMetaRow (r : MetaCsvRow) : MetaRow :=
  { chamberID := r.chamberID
    genotype := r.genotype
    status := none
    temperature := r.temperature
    sex := r.sex
    flyCountInChamber :=
      some ((⌊(match r.flies with | none => (1 : ℚ) | some q => q)⌋ : ℤ) : ℚ)
    tube1 := r.food1.map (fun s =>
      (s.replace "5%S" "5% sucrose ").replace "5%YE" " 5% yeast extract") }

/-- Model of `munger.metadata(path_to_csv)` acting on the parsed CSV rows.
`dropna(axis=1, how='all')` drops columns, never rows, so it cannot change
the row count tested next; the column set is fixed by the record type. -/
def metadata (metadata_csv : List MetaCsvRow) :
    Except PyError (List MetaRow) :=
  if metadata_csv.length = 0 then
    -- Source line: `raise ValueError(metadata + ' has 0 rows. Please
    -- check!!!')`.  As in `feedlog`, the name `metadata` denotes the
    -- enclosing function object, so a TypeError is raised instead.
    .error (.typeError
      "unsupported operand type(s) for +: 'function' and 'str'")
  else
    .ok (metadata_csv.map mungeMetaRow)

/-- The experiment-load sequencing of `espresso.__init__` for one
metadata/feedlog file pair: both loaders run with no surrounding
try/except, so any exception propagates and aborts the whole load; then
non-feeding detection and padding follow.  (The FlyID relabelling at
espresso.py line 96 sits between the feedlog load and the detection and
itself raises in this code version — see `initPerFeedlog`; the error
paths proved about this definition arise before that line.) -/
def loadExperimentPair (mrows : List MetaCsvRow) (frows : List FeedRow)
    (expt_duration_minutes : ℚ) :
    Except PyError (List MetaRow × List ℚ × List FeedRow) := do
  let metadata_csv ← metadata mrows
  let feedlog_csv ← feedlog frows
  let non_feeding := detect_non_feeding_flies metadata_csv feedlog_csv
  let padded := add_padrows metadata_csv feedlog_csv
    (expt_duration_minutes * 60) 0
  return (metadata_csv, non_feeding, padded)

/-- A one-subject metadata table used to instantiate the theorems. -/
def exMeta1 : List MetaRow :=
  [{ chamberID := 1, genotype := "w1118", status := none,
     temperature := some 25, sex := some "M", flyCountInChamber := some 1,
     tube1 := some "A" }]

/-- A one-row feedlog (one real feed at 10 s) used to instantiate the
theorems. -/
def exFeed1 : List FeedRow :=
  [{ chamberID := some 1, foodChoice := some "A", relativeTime_s := some 10,
     feedVol_ul := some 1, feedDuration_ms := some 1000, valid := some true,
     experimentState := some "Feeding", aviFile := some "v.avi" }]

/-- A raw feedlog with one good row, one 'Null'-device row and one
negative-time row, used to instantiate the feedlog-normalisation
theorems. -/
def exFeedRaw : List FeedRow :=
  [{ chamberID := some 0, foodChoice := some "A", relativeTime_s := some 10,
     feedVol_ul := some 1, feedDuration_ms := some 1000, valid := some true,
     experimentState := some "Feeding", aviFile := some "v.avi" },
   { chamberID := some 0, foodChoice := some "A", relativeTime_s := some 20,
     feedVol_ul := some 2, feedDuration_ms := some 500, valid := some true,
     experimentState := some "Feeding", aviFile := some "Null" },
   { chamberID := some 1, foodChoice := some "B", relativeTime_s := some (-5),
     feedVol_ul := some 3, feedDuration_ms := some 700, valid := some true,
     experimentState := some "Feeding", aviFile := some "w.avi" }]

/-- The boundary property exactly as claim C1 states it: with window start
0 and the declared duration as window end, every (subject, observed
choice) pair has at least 2 rows after padding, the earliest elapsed time
among them is ≤ the window start, and the latest is ≥ the window end. -/
def c1ClaimAt (m : List MetaRow) (f : List FeedRow) (time_end : ℚ) : Prop :=
  ∀ cid ∈ uniqueKeep (m.map (·.chamberID)),
    ∀ ch ∈ uniqueKeep (f.map (·.foodChoice)),
      2 ≤ (pairRows (add_padrows m f time_end 0) cid ch).length
      ∧ (minTime (timesOfPair (add_padrows m f time_end 0) cid ch)).all
          (fun mn => decide (mn ≤ 0)) = true
      ∧ (maxTime (timesOfPair (add_padrows m f time_end 0) cid ch)).all
          (fun mx => decide (time_end ≤ mx)) = true

/-- Model of `munger.check_column(col, df)` for a string column name: a
KeyError when the name is not a column of the frame.  (The non-string
branch of the source is unreachable from the calls modelled here.) -/
def check_column (col : String) (dfCols : List String) :
    Except PyError Unit :=
  if col ∈ dfCols then .ok ()
  else .error (.keyError
    (col ++ " is not a column in the feedlog. Please check."))

/-- Model of `munger.check_group_by_color_by(col, row, color_by, df)`.
The supplied names are checked to be columns of the frame, in order (the
first missing one raises KeyError); then only the row facet and the
column facet are compared — the comparison of `color_by` against the
facets is commented out in the source. -/
def check_group_by_color_by (col row color_by : Option String)
    (dfCols : List String) : Except PyError Unit :=
  let not_none := ([col, row, color_by]).filterMap id
  match not_none.find? (fun c => decide (¬ c ∈ dfCols)) with
  | some c => .error (.keyError
      (c ++ " is not a column in the feedlog. Please check."))
  | none =>
    if col = row then
      match col with
      | some c => .error (.valueError
          ("Row variable " ++ c ++ " is the same as column variable "
            ++ c ++ "."))
      | none => .ok ()
    else .ok ()

/-- NaN-propagating product of nullable floats. -/
def omul (a b : Option ℚ) : Option ℚ :=
  match a, b with
  | some x, some y => some (x * y)
  | _, _ => none

/-- NaN-propagating quotient of nullable floats; a zero divisor (an IEEE
non-finite result) is modelled as null. -/
def odiv (a b : Option ℚ) : Option ℚ :=
  match a, b with
  | some x, some y => if y = 0 then none else some (x / y)
  | _, _ => none

/-- The Python bool-to-float coercion applied when the `Valid` column is
divided by the occupancy count. -/
def boolToQ : Option Bool → Option ℚ
  | some true => some 1
  | some false => some 0
  | none => none

/-- One row of the merged feedlog-metadata table carrying the base
columns read by the Metric Calculator and the derived columns it
writes. -/
structure MergedRow where
  feedVol_ul : Option ℚ
  feedDuration_ms : Option ℚ
  flyCountInChamber : Option ℚ
  valid : Option Bool
  feedVol_nl : Option ℚ
  feedSpeed_nl_s : Option ℚ
  feedDuration_s : Option ℚ
  averageFeedVolumePerFly_ul : Option ℚ
  averageFeedCountPerFly : Option ℚ
  averageFeedSpeedPerFly_ul_s : Option ℚ
  deriving Repr, DecidableEq

/-- Row transform of `munger.compute_nanoliter_cols`: FeedVol_nl is the
µl volume times 1000, and the feed speed divides it by the duration in
seconds (computed from the freshly assigned FeedVol_nl column). -/
def computeNanoliterRow (r : MergedRow) : MergedRow :=
  let vol_nl := omul r.feedVol_ul (some 1000)
  { r with feedVol_nl := vol_nl,
           feedSpeed_nl_s := odiv vol_nl (odiv r.feedDuration_ms (some 1000)) }

/-- Model of `munger.compute_nanoliter_cols` (the source copies the frame
and returns the copy with the two new columns). -/
def compute_nanoliter_cols (f : List MergedRow) : List MergedRow :=
  f.map computeNanoliterRow

/-- Row transform of `munger.compute_time_cols`. -/
def computeTimeRow (r : MergedRow) : MergedRow :=
  { r with feedDuration_s := odiv r.feedDuration_ms (some 1000) }

/-- Model of `munger.compute_time_cols`. -/
def compute_time_cols (f : List MergedRow) : List MergedRow :=
  f.map computeTimeRow

/-- Row transform of `munger.average_feed_vol_per_fly`. -/
def averageFeedVolRow (r : MergedRow) : MergedRow :=
  { r with averageFeedVolumePerFly_ul := odiv r.feedVol_ul r.flyCountInChamber }

/-- Model of `munger.average_feed_vol_per_fly`. -/
def average_feed_vol_per_fly (df : List MergedRow) : List MergedRow :=
  df.map averageFeedVolRow

/-- Row transform of `munger.average_feed_count_per_fly` (the boolean
Valid column divided by the occupancy, as a float). -/
def averageFeedCountRow (r : MergedRow) : MergedRow :=
  { r with averageFeedCountPerFly := odiv (boolToQ r.valid) r.flyCountInChamber }

/-- Model of `munger.average_feed_count_per_fly`. -/
def average_feed_count_per_fly (df : List MergedRow) : List MergedRow :=
  df.map averageFeedCountRow

/-- Row transform of `munger.average_feed_speed_per_fly`. -/
def averageFeedSpeedRow (r : MergedRow) : MergedRow :=
  { r with averageFeedSpeedPerFly_ul_s := odiv (odiv r.feedVol_ul (odiv r.feedDuration_ms (some 1000))) r.flyCountInChamber }

/-- Model of `munger.average_feed_speed_per_fly`. -/
def average_feed_speed_per_fly (df : List MergedRow) : List MergedRow :=
  df.map averageFeedSpeedRow

/-- The Metric Calculator: the five derived-column passes in the order
`espresso.__init__` applies them. -/
def metric_calculator (df : List MergedRow) : List MergedRow :=
  average_feed_speed_per_fly (average_feed_count_per_fly
    (average_feed_vol_per_fly (compute_time_cols
      (compute_nanoliter_cols df))))

/-- True when `pat` is a prefix of `l`. -/
def leadsWith {α : Type} [DecidableEq α] : List α → List α → Bool
  | [], _ => true
  | _ :: _, [] => false
  | a :: as, b :: bs => decide (a = b) && leadsWith as bs

/-- True when `pat` occurs as a contiguous subsequence of the list:
the Python `in` test on strings. -/
def containsSeq {α : Type} [DecidableEq α] (pat : List α) :
    List α → Bool
  | [] => leadsWith pat []
  | a :: rest => leadsWith pat (a :: rest) || containsSeq pat rest

/-- Model of `munger.assign_status_from_genotype`: 'Sibling' when the
lower-cased genotype contains 'w1118', else 'Offspring'. -/
def assign_status_from_genotype (genotype : String) : String :=
  if containsSeq ("w1118".toList) (genotype.toList.map Char.toLower)
  then "Sibling" else "Offspring"

/-- Model of `munger.make_categorical_columns(df)`: the function mutates
`df` in place (its own docstring says "inplace") and returns None; this
definition gives the caller-visible table after the call.  The
value-level effect is the Status column overwritten from Genotype; the
categorical re-encodings of Genotype, Temperature, Sex and
FlyCountInChamber change dtypes and category orderings, not cell
values. -/
def make_categorical_columns (df : List MetaRow) : List MetaRow :=
  df.map fun r =>
    { r with status := some (assign_status_from_genotype r.genotype) }

/-- State-passing form of `add_padrows`: the result together with the
caller's feedlog after the call.  The source assigns `f = feedlog.copy()`
and appends to the copy, so the caller's table comes back unchanged. -/
def add_padrowsState (m : List MetaRow) (f : List FeedRow) (te ts : ℚ) :
    List FeedRow × List FeedRow :=
  (add_padrows m f te ts, f)

/-- State-passing form of `compute_nanoliter_cols` (source:
`f = feedlog_df.copy()`). -/
def compute_nanoliter_colsState (df : List MergedRow) :
    List MergedRow × List MergedRow :=
  (compute_nanoliter_cols df, df)

/-- State-passing form of `compute_time_cols` (source: copies). -/
def compute_time_colsState (df : List MergedRow) :
    List MergedRow × List MergedRow :=
  (compute_time_cols df, df)

/-- State-passing form of `average_feed_vol_per_fly` (source: copies). -/
def average_feed_vol_per_flyState (df : List MergedRow) :
    List MergedRow × List MergedRow :=
  (average_feed_vol_per_fly df, df)

/-- State-passing form of `average_feed_count_per_fly` (source: copies). -/
def average_feed_count_per_flyState (df : List MergedRow) :
    List MergedRow × List MergedRow :=
  (average_feed_count_per_fly df, df)

/-- State-passing form of `average_feed_speed_per_fly` (source: copies). -/
def average_feed_speed_per_flyState (df : List MergedRow) :
    List MergedRow × List MergedRow :=
  (average_feed_speed_per_fly df, df)

/-- State-passing form of `make_categorical_columns`: the Python function
returns None, and the caller's table comes back mutated. -/
def make_categorical_columnsState (df : List MetaRow) :
    Unit × List MetaRow :=
  ((), make_categorical_columns df)

/-- The dtype of the RelativeTime_s column of a feeds table, the part of
the table state that `groupby_resamp_sum` mutates: the source executes
`feeds.loc[:,'RelativeTime_s'] = to_datetime(feeds['RelativeTime_s'],
unit='s')` on the caller's frame whenever the column's dtype is still
float64. -/
structure FeedsDtype where
  timeIsDatetime : Bool
  deriving Repr, DecidableEq

/-- The caller-visible dtype state of the feeds table after
`groupby_resamp_sum(feeds, ...)` returns. -/
def groupby_resamp_sumStateDtype (feeds : FeedsDtype) : FeedsDtype :=
  if feeds.timeIsDatetime = false then { feeds with timeIsDatetime := true }
  else feeds

/-- One row of the resampled feeds table entering
`cumsum_for_cumulative`: the RelativeTime_s column is a datetime by this
point (modelled as seconds since the epoch), the two metric columns are
about to be renamed to their cumulative labels, and `groupVal` stands for
the group-by columns carried through the merge. -/
structure ResampRow where
  chamberID : Option ℚ
  relativeTime_s : Option ℚ
  averageFeedVolumePerFly_ul : Option ℚ
  averageFeedCountPerFly : Option ℚ
  groupVal : Option String
  deriving Repr, DecidableEq

/-- One row of the output of `cumsum_for_cumulative`: the per-chamber
cumulative volume and count, the original time and group columns brought
back by the index-aligned merge, and the derived time_s column. -/
structure CumRow where
  cumulativeVolume_ul : Option ℚ
  cumulativeFeedCount : Option ℚ
  relativeTime_s : Option ℚ
  chamberID : Option ℚ
  groupVal : Option String
  time_s : Option ℤ
  deriving Repr, DecidableEq

/-- `add_time_column`: `rt.dt.hour*3600 + rt.dt.minute*60 + rt.dt.second`
of a datetime built from `t` seconds after the epoch, i.e. the
seconds-of-day of ⌊t⌋. -/
def timeOfDay (t : Option ℚ) : Option ℤ :=
  t.map (fun x => ⌊x⌋ % 86400)

/-- The per-chamber running cumulative sums of
`groupby('ChamberID').cumsum()`, walking the rows in order while keeping
one (volume, count) running total per chamber: a NaN cell leaves a NaN in
the output and does not advance the total, as in pandas cumsum. -/
def cumsumAux : List (Option ℚ × ℚ × ℚ) → List ResampRow → List CumRow
  | _, [] => []
  | acc, r :: rest =>
    let prev : ℚ × ℚ :=
      match acc.find? (fun p => decide (p.1 = r.chamberID)) with
      | some p => p.2
      | none => (0, 0)
    let newVol := r.averageFeedVolumePerFly_ul.map (fun x => prev.1 + x)
    let newCnt := r.averageFeedCountPerFly.map (fun x => prev.2 + x)
    let totVol :=
      match r.averageFeedVolumePerFly_ul with
      | some x => prev.1 + x
      | none => prev.1
    let totCnt :=
      match r.averageFeedCountPerFly with
      | some x => prev.2 + x
      | none => prev.2
    let acc' := (r.chamberID, totVol, totCnt) ::
      acc.filter (fun p => decide (¬ p.1 = r.chamberID))
    { cumulativeVolume_ul := newVol
      cumulativeFeedCount := newCnt
      relativeTime_s := r.relativeTime_s
      chamberID := r.chamberID
      groupVal := r.groupVal
      time_s := timeOfDay r.relativeTime_s } :: cumsumAux acc' rest

/-- Model of `munger.cumsum_for_cumulative(df, group_by_cols)`: the frame
is copied, the two metric columns renamed to their cumulative labels,
the per-chamber cumulative sums computed (rows whose ChamberID is NaN
form no group and are dropped by the index-aligned merge), the group and
time columns merged back, and the time_s column added.  The column
renames are the identity on this record type. -/
def cumsum_for_cumulative (df : List ResampRow) : List CumRow :=
  cumsumAux [] (df.filter (fun r => r.chamberID.isSome))

/-- State-passing form of `cumsum_for_cumulative` (source:
`temp = df.copy()` at munger.py line 440; every write lands on the copy
or on freshly built frames). -/
def cumsum_for_cumulativeState (df : List ResampRow) :
    List CumRow × List ResampRow :=
  (cumsum_for_cumulative df, df)

/-- A concrete flies table whose Status column is unset, to exhibit the
in-place mutation of `make_categorical_columns`. -/
def exFlies1 : List MetaRow :=
  [{ chamberID := 1, genotype := "w1118", status := none,
     temperature := some 25, sex := some "M", flyCountInChamber := some 1,
     tube1 := some "A" }]

/-- The attributes of an espresso experiment object that `__add__` and
`__radd__` read or write. -/
structure Espresso where
  flies : List MetaRow
  feeds : List MergedRow
  feedlogs : List String
  deriving Repr, DecidableEq

/-- pandas `merge(a, b, how='outer')` over the full shared column set,
for tables without duplicate rows: the rows of `a` followed by the rows
of `b` not already present. -/
def mergeOuter {α : Type} [DecidableEq α] (a b : List α) : List α :=
  a ++ b.filter (fun r => decide (¬ r ∈ a))

/-- Model of `espresso.__add__`: a deep copy of self receives the
outer-merged tables and the de-duplicated union of feedlog names, and is
returned; neither operand is modified.  (The categorical re-encoding of
the merged tables is value-preserving, as for make_categorical_columns,
and the ordering bookkeeping is not needed here.) -/
def espressoAdd (a b : Espresso) : Espresso :=
  { flies := mergeOuter a.flies b.flies
    feeds := mergeOuter a.feeds b.feeds
    feedlogs := uniqueKeep (a.feedlogs ++ b.feedlogs) }

/-- A Python value that can take part in a sum over espresso
experiments. -/
inductive PyVal where
  | int : Int → PyVal
  | exp : Espresso → PyVal
  deriving DecidableEq

/-- Model of `espresso.__radd__(self, other)`: when `other == 0` the very
object `self` is returned unchanged; otherwise `self.__add__(other)`
runs, which succeeds only on an espresso operand (on an int it crashes
reading `other_copy.flies`). -/
def espresso_radd (self : Espresso) (other : PyVal) : Except PyError PyVal :=
  if other = .int 0 then .ok (.exp self)
  else
    match other with
    | .exp o => .ok (.exp (espressoAdd self o))
    | .int _ => .error (.typeError
        "espresso.__add__ applied to a non-espresso, non-zero operand")

/-- Python `+` dispatch over the values appearing in `sum(experiments)`:
int + int adds; int + espresso falls back to `__radd__` because
`int.__add__` returns NotImplemented; espresso + espresso uses
`__add__`; espresso + int fails inside `__add__`. -/
def pyAdd : PyVal → PyVal → Except PyError PyVal
  | .int a, .int b => .ok (.int (a + b))
  | .int a, .exp e => espresso_radd e (.int a)
  | .exp _, .int _ => .error (.typeError
      "espresso.__add__ applied to a non-espresso, non-zero operand")
  | .exp a, .exp b => .ok (.exp (espressoAdd a b))

/-- Python `sum(vals)`: a left fold of `+` starting from the int 0. -/
def pySum (vals : List PyVal) : Except PyError PyVal :=
  vals.foldlM pyAdd (.int 0)

/-- One row of the merged, metric-annotated table as consumed by
`contrast_plot_munger`; `compareVal`, `colorVal` and `groupVal` are the
values of the columns supplied for the compare, color and (string) group
roles. -/
structure CRow where
  chamberID : Option ℚ
  foodChoice : Option String
  relativeTime_s : Option ℚ
  feedDuration_ms : Option ℚ
  averageFeedVolumePerFly_ul : Option ℚ
  averageFeedCountPerFly : Option ℚ
  averageFeedSpeedPerFly_ul_s : Option ℚ
  experimentState : Option String
  compareVal : Option String
  colorVal : Option String
  groupVal : Option String
  deriving Repr, DecidableEq

/-- One row of the flies table as consumed by `contrast_plot_munger`:
the subject identifier plus the values of the three factor columns. -/
structure FlyFactorRow where
  chamberID : ℚ
  compareVal : String
  colorVal : String
  groupVal : String
  deriving Repr, DecidableEq

/-- The grouping-key tuple `gby = [ChamberID, compare_by, color_by,
group_by]` of `contrast_plot_munger` (string `group_by` case with
`FoodChoice` not among the keys). -/
structure GKey where
  chamberID : ℚ
  compareVal : String
  colorVal : String
  groupVal : String
  deriving Repr, DecidableEq

/-- The gby key of a row; pandas groupby discards a row with a null in
any grouping column. -/
def gkey (r : CRow) : Option GKey :=
  match r.chamberID, r.compareVal, r.colorVal, r.groupVal with
  | some c, some cp, some cl, some g => some ⟨c, cp, cl, g⟩
  | _, _, _, _ => none

/-- pandas `sum()` over a group: NaN cells contribute zero, and a group
whose cells are all NaN sums to 0 (skipna, default min_count=0). -/
def nansum : List (Option ℚ) → ℚ
  | [] => 0
  | some x :: l => x + nansum l
  | none :: l => nansum l

/-- A contrast row with no null cell: the rows surviving the `dropna()`
that precedes the latency groupby. -/
def crowComplete (r : CRow) : Bool :=
  r.chamberID.isSome && r.foodChoice.isSome && r.relativeTime_s.isSome &&
  r.feedDuration_ms.isSome && r.averageFeedVolumePerFly_ul.isSome &&
  r.averageFeedCountPerFly.isSome && r.averageFeedSpeedPerFly_ul_s.isSome &&
  r.experimentState.isSome && r.compareVal.isSome && r.colorVal.isSome &&
  r.groupVal.isSome

/-- The summed metric columns selected into `grp_sum`. -/
structure SumAgg where
  feedDuration_ms : ℚ
  averageFeedVolumePerFly_ul : ℚ
  averageFeedCountPerFly : ℚ
  averageFeedSpeedPerFly_ul_s : ℚ
  deriving Repr, DecidableEq

/-- The member rows of one gby group. -/
def groupRows (rows : List CRow) (k : GKey) : List CRow :=
  rows.filter (fun r => decide (gkey r = some k))

/-- The gby keys present in a table (rows with a null key dropped). -/
def groupbyKeys (rows : List CRow) : List GKey :=
  uniqueKeep (rows.filterMap gkey)

/-- The groupby().sum() aggregate of one group, restricted to the metric
columns selected into `grp_sum`. -/
def sumAggOf (rows : List CRow) (k : GKey) : SumAgg :=
  { feedDuration_ms :=
      nansum ((groupRows rows k).map (·.feedDuration_ms))
    averageFeedVolumePerFly_ul :=
      nansum ((groupRows rows k).map (·.averageFeedVolumePerFly_ul))
    averageFeedCountPerFly :=
      nansum ((groupRows rows k).map (·.averageFeedCountPerFly))
    averageFeedSpeedPerFly_ul_s :=
      nansum ((groupRows rows k).map (·.averageFeedSpeedPerFly_ul_s)) }

/-- The pandas test selecting feeds inside the time window:
`RelativeTime_s > start_hour*3600` and `< end_hour*3600`; a NaN elapsed
time fails both. -/
def inWindow (start_hour end_hour : ℚ) (r : CRow) : Bool :=
  r.relativeTime_s.any (fun t => decide (start_hour * 3600 < t)) &&
  r.relativeTime_s.any (fun t => decide (t < end_hour * 3600))

/-- `df_in_window` of `contrast_plot_munger`. -/
def contrastWindow (feeds : List CRow) (start_hour end_hour : ℚ) :
    List CRow :=
  feeds.filter (inWindow start_hour end_hour)

/-- `inactive_chambers_in_time_window`: the flies' chambers absent from
the windowed feeds. -/
def inactiveChambers (feeds : List CRow) (flies : List FlyFactorRow)
    (start_hour end_hour : ℚ) : List ℚ :=
  (uniqueKeep (flies.map (·.chamberID))).filter
    (fun c => decide (¬ some c ∈
      uniqueKeep ((contrastWindow feeds start_hour end_hour).map
        (·.chamberID))))

/-- One pad row of `contrast_plot_munger`: all-NaN except the FoodChoice,
ChamberID and 'PAD' state assignments, the gby factor values copied from
the fly's metadata row, and the volume and count columns then zeroed
(the source zeroes those two columns across the whole pad frame). -/
def contrastPadRow (chamberid : ℚ) (choice : Option String)
    (fly : Option FlyFactorRow) : CRow :=
  { chamberID := some chamberid
    foodChoice := choice
    relativeTime_s := none
    feedDuration_ms := none
    averageFeedVolumePerFly_ul := some 0
    averageFeedCountPerFly := some 0
    averageFeedSpeedPerFly_ul_s := none
    experimentState := some "PAD"
    compareVal := fly.map (·.compareVal)
    colorVal := fly.map (·.colorVal)
    groupVal := fly.map (·.groupVal) }

/-- The pad rows of `contrast_plot_munger`: one per inactive chamber per
food choice observed anywhere in the feeds. -/
def contrastPads (feeds : List CRow) (flies : List FlyFactorRow)
    (start_hour end_hour : ℚ) : List CRow :=
  (inactiveChambers feeds flies start_hour end_hour).flatMap fun chamberid =>
    (uniqueKeep (feeds.map (·.foodChoice))).map fun choice =>
      contrastPadRow chamberid choice
        (flies.find? (fun fl => decide (fl.chamberID = chamberid)))

/-- `df_in_window_padded`. -/
def contrastPadded (feeds : List CRow) (flies : List FlyFactorRow)
    (start_hour end_hour : ℚ) : List CRow :=
  contrastWindow feeds start_hour end_hour ++
    contrastPads feeds flies start_hour end_hour

/-- `grp_sum`: the groupby(gby).sum() table restricted to the duration,
volume, count and speed columns. -/
def contrastSums (feeds : List CRow) (flies : List FlyFactorRow)
    (start_hour end_hour : ℚ) : List (GKey × SumAgg) :=
  (groupbyKeys (contrastPadded feeds flies start_hour end_hour)).map
    fun k => (k, sumAggOf (contrastPadded feeds flies start_hour end_hour) k)

/-- `grp_min`: the dropna().groupby(gby).min() table restricted to
RelativeTime_s — the latency output. -/
def contrastMins (feeds : List CRow) (flies : List FlyFactorRow)
    (start_hour end_hour : ℚ) : List (GKey × ℚ) :=
  let complete := (contrastPadded feeds flies start_hour end_hour).filter
    crowComplete
  (groupbyKeys complete).filterMap fun k =>
    (minTime ((groupRows complete k).filterMap (·.relativeTime_s))).map
      fun m => (k, m)

/-- Model of the aggregation stage of `munger.contrast_plot_munger`
(string group_by case, FoodChoice not among the grouping keys): the
column-name identity checks act on names that are fixed roles of the
record type here; the under-two-categories guard on the compare column is
kept; the output is the pair of the summed table and the latency table,
which downstream code merges and renames without altering the property
claimed here. -/
def contrast_plot_munger (feeds : List CRow) (flies : List FlyFactorRow)
    (start_hour end_hour : ℚ) :
    Except PyError (List (GKey × SumAgg) × List (GKey × ℚ)) :=
  if (uniqueKeep (feeds.map (·.compareVal))).length < 2 then
    .error (.valueError
      "compare_by has less than 2 categories and cannot be used.")
  else
    .ok (contrastSums feeds flies start_hour end_hour,
         contrastMins feeds flies start_hour end_hour)

/-- State-passing form of `contrast_plot_munger` (source:
`df = feeds.copy()` and `flies_ = flies.copy()` at munger.py lines
566-567; the caller's tables come back unchanged). -/
def contrast_plot_mungerState (feeds : List CRow)
    (flies : List FlyFactorRow) (start_hour end_hour : ℚ) :
    Except PyError (List (GKey × SumAgg) × List (GKey × ℚ))
      × (List CRow × List FlyFactorRow) :=
  (contrast_plot_munger feeds flies start_hour end_hour, (feeds, flies))

/-- Flies table for the contrast witness: chamber 1 active, chamber 2
inactive. -/
def exFlies2 : List FlyFactorRow :=
  [{ chamberID := 1, compareVal := "A", colorVal := "X", groupVal := "G" },
   { chamberID := 2, compareVal := "B", colorVal := "X", groupVal := "G" }]

/-- Feeds table for the contrast witness: two complete real feeds of
chamber 1 inside the window, two compare categories, none for
chamber 2. -/
def exCFeeds : List CRow :=
  [{ chamberID := some 1, foodChoice := some "F",
     relativeTime_s := some 100, feedDuration_ms := some 500,
     averageFeedVolumePerFly_ul := some 2, averageFeedCountPerFly := some 1,
     averageFeedSpeedPerFly_ul_s := some 4,
     experimentState := some "Feeding", compareVal := some "A",
     colorVal := some "X", groupVal := some "G" },
   { chamberID := some 1, foodChoice := some "F",
     relativeTime_s := some 200, feedDuration_ms := some 250,
     averageFeedVolumePerFly_ul := some 1, averageFeedCountPerFly := some 1,
     averageFeedSpeedPerFly_ul_s := some 2,
     experimentState := some "Feeding", compareVal := some "B",
     colorVal := some "X", groupVal := some "G" }]

/-! ## Theorems -/

theorem mem_foldl_insertUnique {α : Type} [DecidableEq α] {a : α} :
    ∀ {l acc : List α}, a ∈ l.foldl insertUnique acc ↔ a ∈ acc ∨ a ∈ l
  | [], acc => by simp
  | b :: l, acc => by
    have hstep : a ∈ insertUnique acc b ↔ a ∈ acc ∨ a = b := by
      unfold insertUnique
      by_cases hb : b ∈ acc
      · simp only [if_pos hb]
        exact ⟨Or.inl, fun h => h.elim id (fun hab => hab ▸ hb)⟩
      · simp [if_neg hb]
    rw [List.foldl_cons, mem_foldl_insertUnique (l := l)]
    rw [hstep]
    simp [or_assoc]

theorem mem_uniqueKeep {α : Type} [DecidableEq α] {a : α} {l : List α} :
    a ∈ uniqueKeep l ↔ a ∈ l := by
  unfold uniqueKeep
  rw [mem_foldl_insertUnique]
  simp

theorem nodup_foldl_insertUnique {α : Type} [DecidableEq α] :
    ∀ (l acc : List α), acc.Nodup → (l.foldl insertUnique acc).Nodup
  | [], acc, h => h
  | b :: l, acc, h => by
    rw [List.foldl_cons]
    refine nodup_foldl_insertUnique l _ ?_
    unfold insertUnique
    by_cases hb : b ∈ acc
    · simpa [if_pos hb] using h
    · rw [if_neg hb]
      exact ((List.perm_append_singleton b acc).nodup_iff).mpr
        (List.nodup_cons.mpr ⟨hb, h⟩)

theorem uniqueKeep_nodup {α : Type} [DecidableEq α] (l : List α) :
    (uniqueKeep l).Nodup :=
  nodup_foldl_insertUnique l [] List.nodup_nil

theorem add_padrows_eq (m : List MetaRow) (f : List FeedRow) (te ts : ℚ) :
    add_padrows m f te ts = addPadrowsSpec m f te ts := rfl

theorem countP_eq_one_of_nodup {α : Type} [DecidableEq α] {a : α} :
    ∀ {l : List α}, l.Nodup → a ∈ l →
      l.countP (fun b => decide (b = a)) = 1
  | [], _, ha => absurd ha (List.not_mem_nil a)
  | b :: l, hn, ha => by
    rcases List.nodup_cons.mp hn with ⟨hbl, hn'⟩
    rcases List.mem_cons.mp ha with hab | hal
    · subst hab
      have : l.countP (fun b => decide (b = a)) = 0 :=
        List.countP_eq_zero.mpr (by
          intro x hx
          simp only [decide_eq_true_eq]
          intro hxa
          exact hbl (hxa ▸ hx))
      simp [List.countP_cons, this]
    · have hba : ¬ b = a := fun h => hbl (h ▸ hal)
      have := countP_eq_one_of_nodup hn' hal
      simp [List.countP_cons, this, hba]

theorem countP_pads_inner (cid c : ℚ) (ch : Option String)
    (hs : List (Option String)) (t1 t2 : ℚ) :
    (hs.flatMap fun h => [specPadRow c h t1, specPadRow c h t2]).countP
      (padPred cid ch)
    = if c = cid then 2 * hs.countP (fun h => decide (h = ch)) else 0 := by
  induction hs with
  | nil => simp
  | cons h hs ih =>
    simp only [List.flatMap_cons, List.countP_append, ih, List.countP_cons]
    by_cases hc : c = cid
    · subst hc
      by_cases hch : h = ch
      · subst hch
        simp [padPred, specPadRow, List.countP_cons]
        ring
      · simp [padPred, specPadRow, List.countP_cons, hch]
    · simp [padPred, specPadRow, List.countP_cons, hc]

theorem countP_pads_zero (cid : ℚ) (ch : Option String)
    (cs : List ℚ) (hs : List (Option String)) (t1 t2 : ℚ)
    (hcid : cid ∉ cs) :
    (cs.flatMap fun c => hs.flatMap fun h =>
        [specPadRow c h t1, specPadRow c h t2]).countP (padPred cid ch)
    = 0 := by
  induction cs with
  | nil => simp
  | cons c cs ih =>
    simp only [List.mem_cons, not_or] at hcid
    simp only [List.flatMap_cons, List.countP_append, countP_pads_inner,
               ih hcid.2, Ne.symm hcid.1, if_false, Nat.add_zero]

theorem countP_pads_eq_two (cid : ℚ) (ch : Option String)
    (cs : List ℚ) (hs : List (Option String)) (t1 t2 : ℚ)
    (hcs : cs.Nodup) (hcid : cid ∈ cs)
    (hhs : hs.Nodup) (hch : ch ∈ hs) :
    (cs.flatMap fun c => hs.flatMap fun h =>
        [specPadRow c h t1, specPadRow c h t2]).countP (padPred cid ch)
    = 2 := by
  induction cs with
  | nil => cases hcid
  | cons c cs ih =>
    rcases List.nodup_cons.mp hcs with ⟨hcmem, hcs'⟩
    simp only [List.flatMap_cons, List.countP_append, countP_pads_inner]
    rcases List.mem_cons.mp hcid with hcase | hcase
    · subst hcase
      rw [if_pos rfl, countP_eq_one_of_nodup hhs hch,
          countP_pads_zero _ _ _ _ _ _ hcmem]
    · have hne : c ≠ cid := fun h => hcmem (h ▸ hcase)
      rw [if_neg hne, Nat.zero_add, ih hcs' hcase]

theorem minTime_le_of_mem {a : ℚ} :
    ∀ {l : List ℚ}, a ∈ l → ∃ m, minTime l = some m ∧ m ≤ a
  | [], h => absurd h (List.not_mem_nil a)
  | b :: l, h => by
    rcases List.mem_cons.mp h with hb | hl
    · subst hb
      cases hml : minTime l with
      | none => exact ⟨a, by simp [minTime, hml]⟩
      | some m => exact ⟨min a m, by simp [minTime, hml], min_le_left _ _⟩
    · rcases minTime_le_of_mem hl with ⟨m, hm, hma⟩
      exact ⟨min b m, by simp [minTime, hm],
             le_trans (min_le_right _ _) hma⟩

theorem le_maxTime_of_mem {a : ℚ} :
    ∀ {l : List ℚ}, a ∈ l → ∃ m, maxTime l = some m ∧ a ≤ m
  | [], h => absurd h (List.not_mem_nil a)
  | b :: l, h => by
    rcases List.mem_cons.mp h with hb | hl
    · subst hb
      cases hml : maxTime l with
      | none => exact ⟨a, by simp [maxTime, hml]⟩
      | some m => exact ⟨max a m, by simp [maxTime, hml], le_max_left _ _⟩
    · rcases le_maxTime_of_mem hl with ⟨m, hm, hma⟩
      exact ⟨max b m, by simp [maxTime, hm],
             le_trans hma (le_max_right _ _)⟩

/-- C2: the Boundary Padder returns the eventlog with exactly two synthetic
rows appended per (subject from metadata, food choice observed in the
eventlog) pair — one at window start + 0.5 s and one at window end + 289 s,
both with Valid = False and ExperimentState = 'PAD' and every other field
null — and the pre-existing rows appear unchanged (the output equals the
input followed by exactly those pad rows, and each pair receives exactly
two pad rows among the appended block). -/
theorem C2_add_padrows_exact_pads (m : List MetaRow) (f : List FeedRow)
    (te ts : ℚ) :
    add_padrows m f te ts = addPadrowsSpec m f te ts
    ∧ ∀ cid ∈ uniqueKeep (m.map (·.chamberID)),
      ∀ ch ∈ uniqueKeep (f.map (·.foodChoice)),
        ((add_padrows m f te ts).drop f.length).countP (padPred cid ch)
          = 2 := by
  refine ⟨add_padrows_eq m f te ts, ?_⟩
  intro cid hcid ch hch
  rw [add_padrows_eq]
  unfold addPadrowsSpec
  rw [List.drop_left]
  exact countP_pads_eq_two cid ch _ _ _ _ (uniqueKeep_nodup _) hcid
    (uniqueKeep_nodup _) hch

/-- Witness for C2 at a concrete metadata/feedlog pair. -/
theorem C2_add_padrows_exact_pads_witness :
    (add_padrows exMeta1 exFeed1 60 0 = addPadrowsSpec exMeta1 exFeed1 60 0)
    ∧ ((add_padrows exMeta1 exFeed1 60 0).drop exFeed1.length).countP
        (padPred 1 (some "A")) = 2 :=
  ⟨(C2_add_padrows_exact_pads exMeta1 exFeed1 60 0).1,
   (C2_add_padrows_exact_pads exMeta1 exFeed1 60 0).2 1 (by decide)
     (some "A") (by decide)⟩

/-- Counterexample to C1 as stated: with one subject whose only real feed
is at 10 s, the earliest elapsed time for the pair after padding is
0.5 s, which is strictly greater than the window start 0, so the claimed
"earliest ≤ window start" fails. -/
theorem C1_counterexample : ¬ c1ClaimAt exMeta1 exFeed1 60 := by
  intro h
  have hm : (1 : ℚ) ∈ uniqueKeep (exMeta1.map (·.chamberID)) := by decide
  have hc : some "A" ∈ uniqueKeep (exFeed1.map (·.foodChoice)) := by decide
  obtain ⟨-, hmin, -⟩ := h 1 hm (some "A") hc
  have heval : timesOfPair (add_padrows exMeta1 exFeed1 60 0) 1 (some "A")
      = [10, 0 + 1/2, 60 + 289] := rfl
  rw [heval] at hmin
  simp only [minTime, Option.all_some, decide_eq_true_eq] at hmin
  rcases min_le_iff.mp hmin with h10 | hmin'
  · norm_num at h10
  · rcases min_le_iff.mp hmin' with hhalf | h349
    · norm_num at hhalf
    · norm_num at h349

/-- C1 (amended): after padding with window start 0, every (subject,
observed choice) pair has at least 2 rows, the earliest elapsed time among
them is ≤ window start + 0.5 s (the first pad row's offset), and the
latest is ≥ the window end. -/
theorem C1_amended_pad_bounds (m : List MetaRow) (f : List FeedRow)
    (te : ℚ) (cid : ℚ) (hcid : cid ∈ uniqueKeep (m.map (·.chamberID)))
    (ch : Option String) (hch : ch ∈ uniqueKeep (f.map (·.foodChoice))) :
    2 ≤ (pairRows (add_padrows m f te 0) cid ch).length
    ∧ (∃ mn, minTime (timesOfPair (add_padrows m f te 0) cid ch) = some mn
        ∧ mn ≤ 0 + 1/2)
    ∧ (∃ mx, maxTime (timesOfPair (add_padrows m f te 0) cid ch) = some mx
        ∧ te ≤ mx) := by
  have hp1 : specPadRow cid ch (0 + 1/2) ∈ add_padrows m f te 0 := by
    rw [add_padrows_eq]
    unfold addPadrowsSpec
    refine List.mem_append_right _ ?_
    exact List.mem_flatMap.mpr ⟨cid, hcid,
      List.mem_flatMap.mpr ⟨ch, hch, by simp⟩⟩
  have hp2 : specPadRow cid ch (te + 289) ∈ add_padrows m f te 0 := by
    rw [add_padrows_eq]
    unfold addPadrowsSpec
    refine List.mem_append_right _ ?_
    exact List.mem_flatMap.mpr ⟨cid, hcid,
      List.mem_flatMap.mpr ⟨ch, hch, by simp⟩⟩
  have ht1 : (0 + 1/2 : ℚ) ∈ timesOfPair (add_padrows m f te 0) cid ch := by
    unfold timesOfPair pairRows
    exact List.mem_filterMap.mpr ⟨specPadRow cid ch (0 + 1/2),
      List.mem_filter.mpr ⟨hp1, by simp [specPadRow]⟩, rfl⟩
  have ht2 : (te + 289 : ℚ) ∈ timesOfPair (add_padrows m f te 0) cid ch := by
    unfold timesOfPair pairRows
    exact List.mem_filterMap.mpr ⟨specPadRow cid ch (te + 289),
      List.mem_filter.mpr ⟨hp2, by simp [specPadRow]⟩, rfl⟩
  refine ⟨?_, ?_, ?_⟩
  · have h2 : ((uniqueKeep (m.map (·.chamberID))).flatMap fun c =>
        (uniqueKeep (f.map (·.foodChoice))).flatMap fun h =>
          [specPadRow c h (0 + 1/2), specPadRow c h (te + 289)]).countP
            (padPred cid ch) = 2 :=
      countP_pads_eq_two cid ch _ _ _ _ (uniqueKeep_nodup _) hcid
        (uniqueKeep_nodup _) hch
    have hmono : (add_padrows m f te 0).countP (padPred cid ch)
        ≤ (add_padrows m f te 0).countP
            (fun r => decide (r.chamberID = some cid ∧ r.foodChoice = ch)) := by
      refine List.countP_mono_left ?_
      intro r _ hr
      simp only [padPred, decide_eq_true_eq] at hr ⊢
      exact ⟨hr.1, hr.2.1⟩
    have hcnt : 2 ≤ (add_padrows m f te 0).countP (padPred cid ch) := by
      rw [add_padrows_eq]
      unfold addPadrowsSpec
      rw [List.countP_append, h2]
      exact Nat.le_add_left 2 _
    unfold pairRows
    rw [← List.countP_eq_length_filter]
    exact le_trans hcnt hmono
  · rcases minTime_le_of_mem ht1 with ⟨mn, hmn, hle⟩
    exact ⟨mn, hmn, hle⟩
  · rcases le_maxTime_of_mem ht2 with ⟨mx, hmx, hge⟩
    exact ⟨mx, hmx, le_trans (by linarith) hge⟩

/-- Witness for the amended C1 at a concrete metadata/feedlog pair. -/
theorem C1_amended_pad_bounds_witness :
    2 ≤ (pairRows (add_padrows exMeta1 exFeed1 60 0) 1 (some "A")).length
    ∧ (∃ mn, minTime (timesOfPair (add_padrows exMeta1 exFeed1 60 0) 1
        (some "A")) = some mn ∧ mn ≤ 0 + 1/2)
    ∧ (∃ mx, maxTime (timesOfPair (add_padrows exMeta1 exFeed1 60 0) 1
        (some "A")) = some mx ∧ (60 : ℚ) ≤ mx) :=
  C1_amended_pad_bounds exMeta1 exFeed1 60 1 (by decide) (some "A")
    (by decide)

theorem pads_filter_rowComplete_nil (cs : List ℚ)
    (hs : List (Option String)) (t1 t2 : ℚ) :
    (cs.flatMap fun c => hs.flatMap fun h =>
        [specPadRow c h t1, specPadRow c h t2]).filter rowComplete = [] := by
  rw [List.filter_eq_nil_iff]
  intro r hr
  rcases List.mem_flatMap.mp hr with ⟨c, -, hr⟩
  rcases List.mem_flatMap.mp hr with ⟨h, -, hr⟩
  rcases List.mem_cons.mp hr with hr | hr
  · subst hr; simp [rowComplete, specPadRow]
  · rcases List.mem_cons.mp hr with hr | hr
    · subst hr; simp [rowComplete, specPadRow]
    · cases hr

theorem padded_filter_rowComplete (m : List MetaRow) (f : List FeedRow)
    (te ts : ℚ) :
    (add_padrows m f te ts).filter rowComplete = f.filter rowComplete := by
  rw [add_padrows_eq]
  unfold addPadrowsSpec
  rw [List.filter_append, pads_filter_rowComplete_nil, List.append_nil]

/-- The Subject Reconciler semantics of `detect_non_feeding_flies` on its
own: a metadata subject is in the detect list exactly when its identifier
occurs in no complete (non-null) row of the feedlog, and detection is
invariant under padding because every pad row carries nulls and is
discarded by dropna. -/
theorem detect_non_feeding_mem_iff (m : List MetaRow) (f : List FeedRow)
    (te ts : ℚ) (cid : ℚ)
    (hcid : cid ∈ uniqueKeep (m.map (·.chamberID))) :
    ((cid ∈ detect_non_feeding_flies m f) ↔
      ∀ r ∈ f, rowComplete r → ¬ r.chamberID = some cid)
    ∧ detect_non_feeding_flies m (add_padrows m f te ts)
      = detect_non_feeding_flies m f := by
  constructor
  · unfold detect_non_feeding_flies
    rw [List.mem_filter]
    simp only [hcid, true_and, decide_eq_true_eq, mem_uniqueKeep,
               List.mem_map, List.mem_filter]
    push_neg
    constructor
    · intro hno r hrf hrc heq
      exact hno r ⟨hrf, hrc⟩ heq
    · intro hall r ⟨hrf, hrc⟩ heq
      exact hall r hrf hrc heq
  · unfold detect_non_feeding_flies
    simp only [padded_filter_rowComplete]

/-- C3 (exhibiting the code bug): the never-observed-feeding flag can
never be set on this version of the code.  First, the per-feedlog body of
`espresso.__init__` raises AttributeError at espresso.py line 96, reading
the FlyID column that `munger.feedlog` renamed to ChamberID, before the
detection is even reached; second, even with that line repaired, the
AtLeastOneFeed assignment tests the string FlyID cells for membership in
the numeric ChamberID list returned by the detection, so the test never
matches and the flag stays True for every subject, fed or not. -/
theorem C3_flag_never_set :
    (∀ (m : List MetaRow) (f : List FeedRow) (dur : ℚ),
      initPerFeedlog m f dur = .error (.attributeError
        "'DataFrame' object has no attribute 'FlyID'"))
    ∧ (∀ (dt idStr : String) (non_feeding : List ℚ),
      assignAtLeastOneFeed (mkFlyID dt idStr) non_feeding = true) := by
  refine ⟨fun m f dur => rfl, fun dt idStr non_feeding => ?_⟩
  unfold assignAtLeastOneFeed
  simp only [decide_eq_true_eq]
  intro hmem
  rcases List.mem_map.mp hmem with ⟨q, -, hq⟩
  cases hq

/-- C5 (exhibiting the code bug): a zero-row metadata or feedlog table
makes the loader raise — and the exception propagates, aborting the
experiment load — but the exception is a TypeError produced while
building the intended error message (the source concatenates the loader
function object itself, not the CSV path, with the message string), not
the intended ValueError / spec-level ValidationError. -/
theorem C5_zero_rows_typeerror :
    metadata [] = .error (.typeError
      "unsupported operand type(s) for +: 'function' and 'str'")
    ∧ feedlog [] = .error (.typeError
      "unsupported operand type(s) for +: 'function' and 'str'")
    ∧ (∀ (frows : List FeedRow) (dur : ℚ),
        loadExperimentPair [] frows dur = .error (.typeError
          "unsupported operand type(s) for +: 'function' and 'str'"))
    ∧ (∀ (mrows : List MetaCsvRow) (dur : ℚ),
        loadExperimentPair mrows [] dur = .error (.typeError
          "unsupported operand type(s) for +: 'function' and 'str'")) := by
  refine ⟨rfl, rfl, fun frows dur => rfl, fun mrows dur => ?_⟩
  by_cases hm : mrows.length = 0
  · have hnil : mrows = [] := List.length_eq_zero.mp hm
    subst hnil
    rfl
  · have h1 : metadata mrows = .ok (mrows.map mungeMetaRow) := by
      unfold metadata
      rw [if_neg hm]
    unfold loadExperimentPair
    rw [h1]
    rfl

/-- C7: for nonempty input, the munged feedlog equals the raw rows with
exactly those rows removed whose source-device tag is the sentinel 'Null'
or whose elapsed time is negative, with every ChamberID incremented by 1
and every other field unchanged. -/
theorem C7_feedlog_filter_shift (rows : List FeedRow) (hne : rows ≠ []) :
    feedlog rows = .ok ((rows.filter (fun r =>
        decide (¬ (r.aviFile = some "Null" ∨ relTimeNeg r = true)))).map
      (fun r => { r with chamberID := r.chamberID.map (· + 1) })) := by
  unfold feedlog
  rw [if_neg (fun h => hne (List.length_eq_zero.mp h))]
  have hfil : (rows.filter
        (fun r => decide (¬ r.aviFile = some "Null"))).filter
          (fun r => ¬ relTimeNeg r)
      = rows.filter (fun r =>
          decide (¬ (r.aviFile = some "Null" ∨ relTimeNeg r = true))) := by
    rw [List.filter_filter]
    apply List.filter_congr
    intro r _
    by_cases h1 : r.aviFile = some "Null" <;>
      by_cases h2 : relTimeNeg r = true <;> simp [h1, h2]
  simp only [hfil]

/-- Witness for C7 at a concrete raw feedlog containing a good row, a
'Null'-device row and a negative-time row. -/
theorem C7_feedlog_filter_shift_witness :
    feedlog exFeedRaw = .ok ((exFeedRaw.filter (fun r =>
        decide (¬ (r.aviFile = some "Null" ∨ relTimeNeg r = true)))).map
      (fun r => { r with chamberID := r.chamberID.map (· + 1) })) :=
  C7_feedlog_filter_shift exFeedRaw (by decide)

/-- Counterexample to C4 as stated: supplying the same column for the
column-facet role and the color role — two distinct grouping roles — is
accepted with no error at all, because the facet-versus-color comparison
is commented out in the source. -/
theorem C4_counterexample :
    check_group_by_color_by (some "Genotype") (some "Temperature")
      (some "Genotype") ["Genotype", "Temperature"] = .ok () := rfl

/-- C4 (amended): with every supplied role name a column of the table,
the grouping check raises an error (a ValueError, the code-level stand-in
for the spec's ConfigurationError) precisely when the row-facet and the
column-facet roles receive the same non-None column; the same column
supplied for the color role and a facet role is accepted. -/
theorem C4_amended_row_col_check (col row color_by : Option String)
    (dfCols : List String)
    (hvalid : ∀ c ∈ ([col, row, color_by]).filterMap id, c ∈ dfCols) :
    (∀ c, col = some c → row = some c →
      check_group_by_color_by col row color_by dfCols
        = .error (.valueError ("Row variable " ++ c ++
            " is the same as column variable " ++ c ++ ".")))
    ∧ ((col ≠ row ∨ col = none) →
      check_group_by_color_by col row color_by dfCols = .ok ()) := by
  have hfind : (([col, row, color_by]).filterMap id).find?
      (fun c => decide (¬ c ∈ dfCols)) = none := by
    rw [List.find?_eq_none]
    intro c hc
    simpa using hvalid c hc
  constructor
  · intro c hcol hrow
    subst hcol
    unfold check_group_by_color_by
    simp only [hfind]
    rw [if_pos hrow.symm]
  · intro hne
    unfold check_group_by_color_by
    simp only [hfind]
    rcases hne with hne | hnone
    · rw [if_neg hne]
    · subst hnone
      by_cases hr : (none : Option String) = row
      · rw [if_pos hr]
      · rw [if_neg hr]

/-- Witness for the amended C4: identical row and column facets raise the
ValueError, and an identical color/facet pair returns cleanly. -/
theorem C4_amended_row_col_check_witness :
    check_group_by_color_by (some "Genotype") (some "Genotype")
      (some "Sex") ["Genotype", "Sex"]
    = .error (.valueError ("Row variable " ++ "Genotype" ++
        " is the same as column variable " ++ "Genotype" ++ ".")) :=
  (C4_amended_row_col_check (some "Genotype") (some "Genotype") (some "Sex")
    ["Genotype", "Sex"] (by decide)).1 "Genotype" rfl rfl

/-- C8: the Metric Calculator is idempotent: running the five
derived-column passes a second time over an already-annotated table
recomputes every derived column from the unchanged base columns and
yields the identical table. -/
theorem C8_metric_calculator_idempotent (df : List MergedRow) :
    metric_calculator (metric_calculator df) = metric_calculator df := by
  unfold metric_calculator compute_nanoliter_cols compute_time_cols
    average_feed_vol_per_fly average_feed_count_per_fly
    average_feed_speed_per_fly
  simp only [List.map_map]
  rfl

/-- Counterexample to C9 as stated: categorical encoding and
resampling/aggregation are among the listed operations, yet
`make_categorical_columns` overwrites the caller's Status column in place
(here: a concrete flies table with Status unset is changed by the call),
and `groupby_resamp_sum` converts the caller's float RelativeTime_s
column to datetime in place. -/
theorem C9_counterexample :
    make_categorical_columns exFlies1 ≠ exFlies1
    ∧ groupby_resamp_sumStateDtype ⟨false⟩ ≠ ⟨false⟩ := by
  constructor
  · decide
  · decide

/-- C9 (amended): the table operations that begin by copying their input
— padding, the five metric-computation passes, cumulative summation and
contrast preparation — are copy-on-write: the caller-visible input
table(s) after each call equal the input before it.  Categorical
encoding (documented in-place) and the resampler's in-place datetime
conversion are the exceptions exhibited by the counterexample. -/
theorem C9_amended_copy_on_write :
    (∀ (m : List MetaRow) (f : List FeedRow) (te ts : ℚ),
      (add_padrowsState m f te ts).2 = f)
    ∧ (∀ df, (compute_nanoliter_colsState df).2 = df)
    ∧ (∀ df, (compute_time_colsState df).2 = df)
    ∧ (∀ df, (average_feed_vol_per_flyState df).2 = df)
    ∧ (∀ df, (average_feed_count_per_flyState df).2 = df)
    ∧ (∀ df, (average_feed_speed_per_flyState df).2 = df)
    ∧ (∀ df, (cumsum_for_cumulativeState df).2 = df)
    ∧ (∀ (feeds : List CRow) (flies : List FlyFactorRow)
        (start_hour end_hour : ℚ),
      (contrast_plot_mungerState feeds flies start_hour end_hour).2
        = (feeds, flies)) :=
  ⟨fun _ _ _ _ => rfl, fun _ => rfl, fun _ => rfl, fun _ => rfl,
   fun _ => rfl, fun _ => rfl, fun _ => rfl, fun _ _ _ _ => rfl⟩

theorem foldlM_pyAdd_exps (a : Espresso) (es : List Espresso) :
    List.foldlM pyAdd (PyVal.exp a) (es.map PyVal.exp)
      = .ok (.exp (es.foldl espressoAdd a)) := by
  induction es generalizing a with
  | nil => rfl
  | cons b es ih =>
    simp only [List.map_cons, List.foldlM_cons, List.foldl_cons]
    show (pyAdd (.exp a) (.exp b)) >>= _ = _
    rw [show pyAdd (.exp a) (.exp b) = .ok (.exp (espressoAdd a b)) from rfl]
    exact ih (espressoAdd a b)

/-- C10: integer zero is a left identity for experiment addition — `0 + e`
dispatches to `espresso.__radd__`, which returns the object `e` itself —
so Python's `sum()` over a nonempty list of experiments, which starts
from the int 0, equals the pairwise `__add__` combination of those
experiments. -/
theorem C10_radd_zero_sum (e : Espresso) (es : List Espresso) :
    pyAdd (.int 0) (.exp e) = .ok (.exp e)
    ∧ pySum ((e :: es).map PyVal.exp) = .ok (.exp (es.foldl espressoAdd e)) := by
  refine ⟨rfl, ?_⟩
  unfold pySum
  simp only [List.map_cons, List.foldlM_cons]
  show (pyAdd (.int 0) (.exp e)) >>= _ = _
  rw [show pyAdd (.int 0) (.exp e) = .ok (.exp e) from rfl]
  exact foldlM_pyAdd_exps e es

theorem gkey_fields {r : CRow} {k : GKey} (h : gkey r = some k) :
    r.chamberID = some k.chamberID ∧ r.compareVal = some k.compareVal ∧
    r.colorVal = some k.colorVal ∧ r.groupVal = some k.groupVal := by
  obtain ⟨ck, cpk, clk, gk⟩ := k
  obtain ⟨c, fc, t, d, v1, v2, v3, st, cp, cl, g⟩ := r
  cases c <;> cases cp <;> cases cl <;> cases g <;>
    (simp [gkey] at h ⊢; try tauto)

theorem nansum_zero :
    ∀ (l : List (Option ℚ)), (∀ a ∈ l, a = some 0 ∨ a = none) →
      nansum l = 0
  | [], _ => rfl
  | a :: l, h => by
    have hl := nansum_zero l (fun b hb => h b (List.mem_cons_of_mem a hb))
    rcases h a (List.mem_cons_self a l) with h0 | h0
    · subst h0
      simp [nansum, hl]
    · subst h0
      simp [nansum, hl]

/-- C6: a subject with zero real events inside the chosen window still
appears in the summed (volume/duration) output of the Contrast-Table
Preparer, with all four metric totals exactly zero, but its key is absent
from the latency output: its pad rows carry a null elapsed time and are
discarded by the dropna preceding the latency groupby, so the undefined
latency is never reported as zero or as a pad time. -/
theorem C6_zero_event_subject (feeds : List CRow)
    (flies : List FlyFactorRow) (start_hour end_hour : ℚ) (cid : ℚ)
    (fly : FlyFactorRow)
    (hfind : flies.find? (fun fl => decide (fl.chamberID = cid)) = some fly)
    (hnowin : ∀ r ∈ feeds, inWindow start_hour end_hour r = true →
      ¬ r.chamberID = some cid)
    (hne : feeds ≠ [])
    (h2 : 2 ≤ (uniqueKeep (feeds.map (·.compareVal))).length) :
    contrast_plot_munger feeds flies start_hour end_hour
      = .ok (contrastSums feeds flies start_hour end_hour,
             contrastMins feeds flies start_hour end_hour)
    ∧ ((⟨cid, fly.compareVal, fly.colorVal, fly.groupVal⟩ : GKey),
        (⟨0, 0, 0, 0⟩ : SumAgg))
        ∈ contrastSums feeds flies start_hour end_hour
    ∧ ∀ p ∈ contrastMins feeds flies start_hour end_hour,
        ¬ p.1.chamberID = cid := by
  have hflymem : fly ∈ flies := List.mem_of_find?_eq_some hfind
  have hflycid : fly.chamberID = cid := by
    have := List.find?_some hfind
    simpa using this
  have hcidflies : cid ∈ uniqueKeep (flies.map (·.chamberID)) :=
    mem_uniqueKeep.mpr (List.mem_map.mpr ⟨fly, hflymem, hflycid⟩)
  have hnotwin : ¬ some cid ∈
      uniqueKeep ((contrastWindow feeds start_hour end_hour).map
        (·.chamberID)) := by
    intro hmem
    rcases List.mem_map.mp (mem_uniqueKeep.mp hmem) with ⟨r, hr, hrc⟩
    rcases List.mem_filter.mp hr with ⟨hrf, hrw⟩
    exact hnowin r hrf hrw hrc
  have hcidinact : cid ∈ inactiveChambers feeds flies start_hour end_hour := by
    unfold inactiveChambers
    refine List.mem_filter.mpr ⟨hcidflies, ?_⟩
    simp only [decide_eq_true_eq]
    exact hnotwin
  obtain ⟨r0, hr0⟩ := List.exists_mem_of_ne_nil feeds hne
  have hch0 : r0.foodChoice ∈ uniqueKeep (feeds.map (·.foodChoice)) :=
    mem_uniqueKeep.mpr (List.mem_map.mpr ⟨r0, hr0, rfl⟩)
  have hpads : contrastPadRow cid r0.foodChoice (some fly)
      ∈ contrastPads feeds flies start_hour end_hour := by
    unfold contrastPads
    refine List.mem_flatMap.mpr ⟨cid, hcidinact, ?_⟩
    refine List.mem_map.mpr ⟨r0.foodChoice, hch0, ?_⟩
    rw [hfind]
  have hppadded : contrastPadRow cid r0.foodChoice (some fly)
      ∈ contrastPadded feeds flies start_hour end_hour :=
    List.mem_append.mpr (Or.inr hpads)
  have hgkeyp : gkey (contrastPadRow cid r0.foodChoice (some fly))
      = some ⟨cid, fly.compareVal, fly.colorVal, fly.groupVal⟩ := rfl
  have hk : (⟨cid, fly.compareVal, fly.colorVal, fly.groupVal⟩ : GKey)
      ∈ groupbyKeys (contrastPadded feeds flies start_hour end_hour) :=
    mem_uniqueKeep.mpr (List.mem_filterMap.mpr
      ⟨contrastPadRow cid r0.foodChoice (some fly), hppadded, hgkeyp⟩)
  have hmembers : ∀ r ∈ groupRows
      (contrastPadded feeds flies start_hour end_hour)
      ⟨cid, fly.compareVal, fly.colorVal, fly.groupVal⟩,
      r.feedDuration_ms = none ∧ r.averageFeedVolumePerFly_ul = some 0 ∧
      r.averageFeedCountPerFly = some 0 ∧
      r.averageFeedSpeedPerFly_ul_s = none := by
    intro r hr
    rcases List.mem_filter.mp hr with ⟨hrm, hrk⟩
    have hrk' : gkey r
        = some ⟨cid, fly.compareVal, fly.colorVal, fly.groupVal⟩ := by
      simpa using hrk
    have hrc : r.chamberID = some cid := (gkey_fields hrk').1
    rcases List.mem_append.mp hrm with hw | hp
    · rcases List.mem_filter.mp hw with ⟨hrf, hrw⟩
      exact absurd hrc (hnowin r hrf hrw)
    · unfold contrastPads at hp
      rcases List.mem_flatMap.mp hp with ⟨c', hc', hp⟩
      rcases List.mem_map.mp hp with ⟨ch', hch', hpe⟩
      rw [← hpe]
      exact ⟨rfl, rfl, rfl, rfl⟩
  have hsum : sumAggOf (contrastPadded feeds flies start_hour end_hour)
      ⟨cid, fly.compareVal, fly.colorVal, fly.groupVal⟩
      = ⟨0, 0, 0, 0⟩ := by
    have hd := nansum_zero _ (by
      intro a ha
      rcases List.mem_map.mp ha with ⟨r, hr, hae⟩
      exact Or.inr (hae ▸ (hmembers r hr).1))
    have hv := nansum_zero _ (by
      intro a ha
      rcases List.mem_map.mp ha with ⟨r, hr, hae⟩
      exact Or.inl (hae ▸ (hmembers r hr).2.1))
    have hc := nansum_zero _ (by
      intro a ha
      rcases List.mem_map.mp ha with ⟨r, hr, hae⟩
      exact Or.inl (hae ▸ (hmembers r hr).2.2.1))
    have hs := nansum_zero _ (by
      intro a ha
      rcases List.mem_map.mp ha with ⟨r, hr, hae⟩
      exact Or.inr (hae ▸ (hmembers r hr).2.2.2))
    unfold sumAggOf
    rw [hd, hv, hc, hs]
  refine ⟨?_, ?_, ?_⟩
  · unfold contrast_plot_munger
    rw [if_neg (Nat.not_lt.mpr h2)]
  · unfold contrastSums
    refine List.mem_map.mpr
      ⟨⟨cid, fly.compareVal, fly.colorVal, fly.groupVal⟩, hk, ?_⟩
    rw [hsum]
  · intro p hp heq
    simp only [contrastMins] at hp
    rcases List.mem_filterMap.mp hp with ⟨k', hk', hmap⟩
    rcases Option.map_eq_some'.mp hmap with ⟨m, hmin, hpe⟩
    have hpk : p.1 = k' := by rw [← hpe]
    rw [hpk] at heq
    rcases List.mem_filterMap.mp (mem_uniqueKeep.mp hk') with ⟨r, hrc, hgk⟩
    rcases List.mem_filter.mp hrc with ⟨hrpadded, hrcompl⟩
    have hrcid : r.chamberID = some cid := by
      have := (gkey_fields hgk).1
      rw [this, heq]
    rcases List.mem_append.mp hrpadded with hw | hp2
    · rcases List.mem_filter.mp hw with ⟨hrf, hrw⟩
      exact hnowin r hrf hrw hrcid
    · unfold contrastPads at hp2
      rcases List.mem_flatMap.mp hp2 with ⟨c', hc', hp2⟩
      rcases List.mem_map.mp hp2 with ⟨ch', hch', hpe2⟩
      rw [← hpe2] at hrcompl
      simp [crowComplete, contrastPadRow] at hrcompl

/-- Witness for C6: chamber 2 has no feeds at all, so with window hours
(0, 1) it appears in the summed table with all-zero totals and is absent
from the latency table. -/
theorem C6_zero_event_subject_witness :
    contrast_plot_munger exCFeeds exFlies2 0 1
      = .ok (contrastSums exCFeeds exFlies2 0 1,
             contrastMins exCFeeds exFlies2 0 1)
    ∧ ((⟨2, "B", "X", "G"⟩ : GKey), (⟨0, 0, 0, 0⟩ : SumAgg))
        ∈ contrastSums exCFeeds exFlies2 0 1
    ∧ ∀ p ∈ contrastMins exCFeeds exFlies2 0 1, ¬ p.1.chamberID = 2 :=
  C6_zero_event_subject exCFeeds exFlies2 0 1 2 ⟨2, "B", "X", "G"⟩
    rfl
    (by
      intro r hr _
      simp only [exCFeeds, List.mem_cons, List.not_mem_nil, or_false] at hr
      rcases hr with rfl | rfl <;> simp)
    (by decide)
    (by decide)

end EspressoModel
